import Mathlib

/-!
Shallow embedding of `src/confirm.js` (the confirmation/invitation API client
of mdblp/platform-client) and proofs about its response-normalization and
error-mapping behaviour.

JavaScript runtime values are modelled by `Confirm.JSValue`; callback
invocations record the exact number of arguments passed (`Confirm.CbCall`);
each operation is modelled as a synchronous outcome (`Confirm.OpOutcome`,
either a thrown error, a locally invoked callback with no network request, or
an outgoing HTTP request), and each response handler (`.end`-callback for the
superagent transport, `.then`-callback for the fetch transport) is a Lean
function from the transport inputs to the callback invocation it performs.
-/

namespace Confirm

/-- JavaScript values, as far as `confirm.js` observes them: primitives,
arrays and plain objects (association lists of string keys). -/
inductive JSValue where
  | null
  | undefined
  | bool (b : Bool)
  | num (n : Int)
  | str (s : String)
  | arr (elems : List JSValue)
  | obj (fields : List (String × JSValue))


/-- Association-list field lookup; a missing key reads as `undefined`,
as JS property access does. -/
def getAssoc : List (String × JSValue) → String → JSValue
  | [], _ => .undefined
  | (k2, v) :: rest, k => if k2 = k then v else getAssoc rest k

/-- Association-list field update: overwrite an existing key in place,
append a fresh one (JS property assignment on a plain object). -/
def setAssoc : List (String × JSValue) → String → JSValue → List (String × JSValue)
  | [], k, v => [(k, v)]
  | (k2, v2) :: rest, k, v =>
      if k2 = k then (k, v) :: rest else (k2, v2) :: setAssoc rest k v

/-- JS property read `o[k]`: `undefined` on non-objects and missing keys. -/
def JSValue.get : JSValue → String → JSValue
  | .obj fields, k => getAssoc fields k
  | _, _ => .undefined

/-- JS property write `o[k] = v` (identity on non-objects; the code only
mutates error objects, which are objects). -/
def JSValue.set : JSValue → String → JSValue → JSValue
  | .obj fields, k, v => .obj (setAssoc fields k v)
  | x, _, _ => x

/-- JS truthiness: `null`, `undefined`, `false`, `0` and `""` are falsy;
every object and array is truthy. -/
def JSValue.truthy : JSValue → Bool
  | .null => false
  | .undefined => false
  | .bool b => b
  | .num n => n != 0
  | .str s => !s.isEmpty
  | .arr _ => true
  | .obj _ => true

/-- JS `a || b`: the left operand when truthy, otherwise the right. -/
def jsOr (a b : JSValue) : JSValue := if a.truthy then a else b

/-- JS `a && b`: the left operand when falsy, otherwise the right. -/
def jsAnd (a b : JSValue) : JSValue := if a.truthy then b else a

/-- JS loose null test `v == null` / `v != null`: true exactly on `null`
and `undefined`. -/
def isNullish : JSValue → Bool
  | .null => true
  | .undefined => true
  | _ => false

/-- JS strict comparison `v === n` against a number literal. -/
def jsStrictEqNum (v : JSValue) (n : Int) : Bool :=
  match v with
  | .num m => m == n
  | _ => false

/-- Lodash `_.isString`. -/
def isString : JSValue → Bool
  | .str _ => true
  | _ => false

/-- Lodash `_.isEmpty`: strings, arrays and objects are empty when they have
no characters, elements or own keys; `null`, `undefined`, booleans and
numbers are always empty. -/
def isEmpty : JSValue → Bool
  | .str s => s.isEmpty
  | .arr xs => xs.isEmpty
  | .obj fs => fs.isEmpty
  | _ => true

/-- Template-literal interpolation of a value into a URL string. The
operations interpolate only after the string validation guard, so only the
`str` case is reachable there. -/
def jsTemplateStr : JSValue → String
  | .str s => s
  | .num n => toString n
  | .bool b => if b then "true" else "false"
  | .null => "null"
  | .undefined => "undefined"
  | .arr _ => ""
  | .obj _ => "[object Object]"

/-- A JS `new Error(m)` value: it carries a `name` and a string `message`
property and, notably, no `status` property. -/
def jsNewError (m : String) : JSValue :=
  .obj [("name", .str "Error"), ("message", .str m)]

/-- One callback invocation, recording exactly how many arguments were
passed (JS distinguishes `cb()`, `cb(null)` and `cb(null, [])`). -/
inductive CbCall where
  | args0
  | args1 (a : JSValue)
  | args2 (a b : JSValue)


/-- An outgoing HTTP request as `confirm.js` assembles it: method, the path
handed to `common.makeAPIUrl`, the explicitly attached headers, and the
JSON body when one is sent. -/
structure Request where
  method : String
  path : String
  headers : List (String × String)
  body : Option JSValue


/-- The synchronous outcome of invoking an operation: a thrown error (no
request issued), a locally invoked callback (no request issued), or an
outgoing request whose response is later mapped by the handler functions. -/
inductive OpOutcome where
  | threw (msg : String)
  | localCb (c : CbCall)
  | request (r : Request)


/-- A fetch-transport response: status code and body text. -/
structure FetchResponse where
  status : Nat
  text : String


/-- Modelled from the spec: the fetch transport is an external collaborator
returning `{ok, status, text()}`, where `response.ok` holds for "any
2x-level status" (section 6 of the spec; the WHATWG fetch definition). -/
def FetchResponse.ok (r : FetchResponse) : Bool :=
  200 ≤ r.status && r.status < 300

/-- Modelled from the spec: `common.STATUS_BAD_REQUEST`, the "fixed HTTP
status constant" supplied by the common-utilities collaborator (not under
`src/`), i.e. HTTP 400 Bad Request. -/
def STATUS_BAD_REQUEST : Int := 400

/-- `signupStart` (confirm.js lines 32-54): throws on an empty or non-string
`invitedId`, otherwise issues a POST with the three tidepool headers. `tok`
and `trc` stand for the values of `common.getToken()` and
`common.getSessionTrace()`. -/
def signupStart (tok trc : String) (invitedId : JSValue) (lang : String) : OpOutcome :=
  if isEmpty invitedId || !isString invitedId then
    .threw "Invalid parameter invitedId"
  else
    .request
      { method := "POST"
        path := "/confirm/send/signup/" ++ jsTemplateStr invitedId
        headers := [("x-tidepool-session-token", tok),
                    ("x-tidepool-trace-session", trc),
                    ("x-tidepool-language", lang)]
        body := none }

/-- The `.then` response handler of `signupStart` (confirm.js lines 46-50):
`cb(null)` when `response.ok`, else `cb(new Error(...))`. -/
def signupStartThen (r : FetchResponse) : CbCall :=
  if r.ok then .args1 .null
  else .args1 (jsNewError ("Invalid HTTP response " ++ toString r.status))

/-- The `.end` response handler of `signupConfirm` (confirm.js lines 66-76):
on a transport error, `err.message = (err.response && err.response.body &&
err.response.body.reason) || ''` then `cb(err)`; on `res.status !== 200`,
`cb({status: res.status, message: res.body.reason})`; else `cb()`. -/
def signupConfirmEnd (err res : JSValue) : CbCall :=
  if !isNullish err then
    .args1 (err.set "message"
      (jsOr (jsAnd (jsAnd (err.get "response") ((err.get "response").get "body"))
                   (((err.get "response").get "body").get "reason"))
            (.str "")))
  else if !jsStrictEqNum (res.get "status") 200 then
    .args1 (.obj [("status", res.get "status"),
                  ("message", (res.get "body").get "reason")])
  else
    .args0

/-- The `.end` response handler of `custodialSignupConfirm` (confirm.js lines
92-102): on a transport error, `err.error` and `err.message` are assigned
from `err.response.body.error` / `err.response.body.reason` (defaulting to
the empty string) then `cb(err)`; on `res.status !== 200`,
`cb({status: res.status, error: res.body.error, message: res.body.reason})`;
else `cb()`. -/
def custodialSignupConfirmEnd (err res : JSValue) : CbCall :=
  if !isNullish err then
    let e1 := err.set "error"
      (jsOr (jsAnd (jsAnd (err.get "response") ((err.get "response").get "body"))
                   (((err.get "response").get "body").get "error"))
            (.str ""))
    .args1 (e1.set "message"
      (jsOr (jsAnd (jsAnd (e1.get "response") ((e1.get "response").get "body"))
                   (((e1.get "response").get "body").get "reason"))
            (.str "")))
  else if !jsStrictEqNum (res.get "status") 200 then
    .args1 (.obj [("status", res.get "status"),
                  ("error", (res.get "body").get "error"),
                  ("message", (res.get "body").get "reason")])
  else
    .args0

/-- `signupResend` (confirm.js lines 111-133): throws on an empty or
non-string `email`, otherwise issues a POST with only the trace-session and
language headers (no session-token header appears in the source). -/
def signupResend (trc : String) (email : JSValue) (lang : String) : OpOutcome :=
  if isEmpty email || !isString email then
    .threw "Invalid parameter email"
  else
    .request
      { method := "POST"
        path := "/confirm/resend/signup/" ++ jsTemplateStr email
        headers := [("x-tidepool-trace-session", trc),
                    ("x-tidepool-language", lang)]
        body := none }

/-- The `.then` response handler of `signupResend` (confirm.js lines
125-129): `cb(null)` when `response.ok`, else
`cb({status: response.status, message: await response.text()})`. -/
def signupResendThen (r : FetchResponse) : CbCall :=
  if r.ok then .args1 .null
  else .args1 (.obj [("status", .num r.status), ("message", .str r.text)])

/-- The `.end` response handler of `invitesReceived` (confirm.js lines
178-192): a transport error with `err.status === 404` yields `cb(null, [])`;
any other transport error yields the single-argument call
`cb((err.response && err.response.body) || [])`; with no transport error,
200 yields `cb(null, res.body)`, 404 yields `cb(null, [])` and any other
status yields `cb(res.body, [])`. -/
def invitesReceivedEnd (err res : JSValue) : CbCall :=
  if !isNullish err then
    if jsStrictEqNum (err.get "status") 404 then
      .args2 .null (.arr [])
    else
      .args1 (jsOr (jsAnd (err.get "response") ((err.get "response").get "body"))
                   (.arr []))
  else if jsStrictEqNum (res.get "status") 200 then
    .args2 .null (res.get "body")
  else if jsStrictEqNum (res.get "status") 404 then
    .args2 .null (.arr [])
  else
    .args2 (res.get "body") (.arr [])

/-- Modelled from the spec: `invitesSent` (confirm.js lines 156-163)
delegates to `common.doGetWithToken` with the declarative mapping table
`{200: res.body, 404: []}`; `doGetWithToken` belongs to the common-utilities
collaborator and is not under `src/`. Per the spec (section 8: "a 404
response yields `(null, [])`; any other non-200 yields `(errorBody, [])`"),
the applied table maps a 200 response to `cb(null, res.body)`, a 404 to
`cb(null, [])`, and any other status to `cb(res.body, [])`. -/
def invitesSentEnd (res : JSValue) : CbCall :=
  if jsStrictEqNum (res.get "status") 200 then
    .args2 .null (res.get "body")
  else if jsStrictEqNum (res.get "status") 404 then
    .args2 .null (.arr [])
  else
    .args2 (res.get "body") (.arr [])

/-- `requestPasswordReset` (confirm.js lines 276-298): throws on an empty or
non-string `email`; otherwise issues a POST to
`/confirm/send/forgot/<email>` with the query string `?info=ok` appended
exactly when `info` is true, carrying only the trace-session and language
headers. -/
def requestPasswordReset (trc : String) (email : JSValue) (info : Bool)
    (lang : String) : OpOutcome :=
  if isEmpty email || !isString email then
    .threw "Invalid parameter email"
  else
    .request
      { method := "POST"
        path := "/confirm/send/forgot/" ++ jsTemplateStr email
                  ++ (if info then "?info=ok" else "")
        headers := [("x-tidepool-trace-session", trc),
                    ("x-tidepool-language", lang)]
        body := none }

/-- The `.then` response handler of `requestPasswordReset` (confirm.js lines
290-294): `cb(null)` when `response.ok`, else
`cb({status: response.status, message: await response.text()})`. -/
def requestPasswordResetThen (r : FetchResponse) : CbCall :=
  if r.ok then .args1 .null
  else .args1 (.obj [("status", .num r.status), ("message", .str r.text)])

/-- `confirmPasswordReset` (confirm.js lines 306-315): fails fast with
`cb({status: common.STATUS_BAD_REQUEST, body: '...'})` and no request when
`payload.key`, `payload.email` or `payload.password` is empty; otherwise
issues a PUT of the payload to `/confirm/accept/forgot`. -/
def confirmPasswordReset (payload : JSValue) : OpOutcome :=
  if isEmpty (payload.get "key") || isEmpty (payload.get "email") ||
      isEmpty (payload.get "password") then
    .localCb (.args1 (.obj [("status", .num STATUS_BAD_REQUEST),
      ("body", .str "payload requires object with `key`, `email`, `password`")]))
  else
    .request
      { method := "PUT"
        path := "/confirm/accept/forgot"
        headers := []
        body := some payload }

/-- The `.end` response handler of `confirmPasswordReset` (confirm.js lines
316-325): on a transport error, `err.message = (err.response &&
err.response.error) || ''` then `cb(err)`; on `res.status !== 200`,
`cb({status: res.status, message: res.error})`; else `cb()`. -/
def confirmPasswordResetEnd (err res : JSValue) : CbCall :=
  if !isNullish err then
    .args1 (err.set "message"
      (jsOr (jsAnd (err.get "response") ((err.get "response").get "error"))
            (.str "")))
  else if !jsStrictEqNum (res.get "status") 200 then
    .args1 (.obj [("status", res.get "status"), ("message", res.get "error")])
  else
    .args0

/-- An error object as the superagent transport hands it to an `.end`
callback on a transport-level failure: `status`, and a `response` whose
`error` property and body (`error` / `reason` properties) are as given.
Used to state facts about the error-augmentation paths. -/
def mkTransportErr (st : Int) (r e : String) : JSValue :=
  .obj [("status", .num st),
        ("response", .obj [("error", .str e),
                           ("body", .obj [("error", .str e),
                                          ("reason", .str r)])])]

/-- Claim C1, counterexample. The claim says every non-200 no-transport-error
response yields a descriptor whose `message` equals the body's `reason` when
present and the empty string when absent. Both parts fail on the code: at a
500 response with an empty body, `signupConfirmEnd` delivers
`message = undefined`, not the empty string (confirm.js line 73 has no
`|| ''` default); and at a 500 response whose body has `reason = "x"`,
`confirmPasswordResetEnd` takes `message` from `res.error` (line 322), which
is `undefined` here, not `"x"`. -/
theorem C1_counterexample :
    (signupConfirmEnd .null (.obj [("status", .num 500), ("body", .obj [])])
        = .args1 (.obj [("status", .num 500), ("message", .undefined)])
      ∧ JSValue.undefined ≠ .str "")
    ∧ (confirmPasswordResetEnd .null
          (.obj [("status", .num 500), ("body", .obj [("reason", .str "x")])])
        = .args1 (.obj [("status", .num 500), ("message", .undefined)])
      ∧ JSValue.undefined ≠ .str "x") :=
  ⟨⟨rfl, by simp⟩, ⟨rfl, by simp⟩⟩

/-- Claim C1, amended: on a response with status `st ≠ 200` and no transport
error, `signupConfirm` delivers `{status: st, message: res.body.reason}` and
`custodialSignupConfirm` delivers
`{status: st, error: res.body.error, message: res.body.reason}` — the
`message` (and `error`) fields are taken verbatim from the body, with no
empty-string default, so they are `undefined` when absent — while
`confirmPasswordReset` delivers `{status: st, message: res.error}`, taking
`message` from the response's `error` property rather than from the body's
`reason`. -/
theorem C1_amended (st : Int) (body resErr : JSValue) (h : st ≠ 200) :
    signupConfirmEnd .null (.obj [("status", .num st), ("body", body)])
      = .args1 (.obj [("status", .num st), ("message", body.get "reason")])
    ∧ custodialSignupConfirmEnd .null (.obj [("status", .num st), ("body", body)])
      = .args1 (.obj [("status", .num st), ("error", body.get "error"),
                      ("message", body.get "reason")])
    ∧ confirmPasswordResetEnd .null
        (.obj [("status", .num st), ("error", resErr), ("body", body)])
      = .args1 (.obj [("status", .num st), ("message", resErr)]) := by
  refine ⟨?_, ?_, ?_⟩ <;>
    simp [signupConfirmEnd, custodialSignupConfirmEnd, confirmPasswordResetEnd,
      isNullish, jsStrictEqNum, JSValue.get, getAssoc, h]

/-- Claim C1, witness: the amended statement at status 500 with a body whose
`reason` is `"why"` and `error` is `"code"`, and `res.error = "oops"`. -/
theorem C1_amended_witness :
    signupConfirmEnd .null
        (.obj [("status", .num 500),
               ("body", .obj [("reason", .str "why"), ("error", .str "code")])])
      = .args1 (.obj [("status", .num 500), ("message", .str "why")])
    ∧ custodialSignupConfirmEnd .null
        (.obj [("status", .num 500),
               ("body", .obj [("reason", .str "why"), ("error", .str "code")])])
      = .args1 (.obj [("status", .num 500), ("error", .str "code"),
                      ("message", .str "why")])
    ∧ confirmPasswordResetEnd .null
        (.obj [("status", .num 500), ("error", .str "oops"),
               ("body", .obj [("reason", .str "why"), ("error", .str "code")])])
      = .args1 (.obj [("status", .num 500), ("message", .str "oops")]) :=
  C1_amended 500 (.obj [("reason", .str "why"), ("error", .str "code")])
    (.str "oops") (by decide)

/-- Claim C2, counterexample. The claim says every non-200, non-404 response
to a list-retrieval operation makes the callback receive the error body as
first argument and `[]` as second argument; but when a 500 arrives through
the transport-error path of `invitesReceived` (confirm.js line 183), the
callback is invoked with a single argument — the error response body — and
no second argument at all. -/
theorem C2_counterexample :
    invitesReceivedEnd
        (.obj [("status", .num 500),
               ("response", .obj [("body", .obj [("reason", .str "boom")])])])
        .undefined
      = .args1 (.obj [("reason", .str "boom")])
    ∧ CbCall.args1 (.obj [("reason", .str "boom")])
        ≠ CbCall.args2 (.obj [("reason", .str "boom")]) (.arr []) :=
  ⟨rfl, by simp⟩

/-- Claim C2, amended: for both list-retrieval operations a 404 — whether
signalled as `err.status` or as `res.status` — yields `(null, [])`; a 200
yields `(null, res.body)`; any other status on the no-transport-error path
yields `(res.body, [])`; but a non-404 status arriving through
`invitesReceived`'s transport-error path yields a single-argument callback
carrying the error response body (or `[]` when absent), with no second
argument. (`invitesSent` delegates to the spec-modelled `doGetWithToken`
table, `invitesSentEnd`.) -/
theorem C2_amended (st : Int) (b rb : JSValue) (h404 : st ≠ 404) (h200 : st ≠ 200) :
    invitesReceivedEnd (.obj [("status", .num 404)]) .undefined
      = .args2 .null (.arr [])
    ∧ invitesReceivedEnd
        (.obj [("status", .num st), ("response", .obj [("body", b)])]) .undefined
      = .args1 (jsOr b (.arr []))
    ∧ invitesReceivedEnd .null (.obj [("status", .num 404), ("body", rb)])
      = .args2 .null (.arr [])
    ∧ invitesReceivedEnd .null (.obj [("status", .num 200), ("body", rb)])
      = .args2 .null rb
    ∧ invitesReceivedEnd .null (.obj [("status", .num st), ("body", rb)])
      = .args2 rb (.arr [])
    ∧ invitesSentEnd (.obj [("status", .num 404), ("body", rb)])
      = .args2 .null (.arr [])
    ∧ invitesSentEnd (.obj [("status", .num 200), ("body", rb)])
      = .args2 .null rb
    ∧ invitesSentEnd (.obj [("status", .num st), ("body", rb)])
      = .args2 rb (.arr []) := by
  refine ⟨?_, ?_, ?_, ?_, ?_, ?_, ?_, ?_⟩ <;>
    simp [invitesReceivedEnd, invitesSentEnd, isNullish, jsStrictEqNum,
      JSValue.get, getAssoc, jsAnd, JSValue.truthy, h404, h200]

/-- Claim C2, witness: the amended statement at status 500 with an object
error body and a one-element array as the success body. -/
theorem C2_amended_witness :
    invitesReceivedEnd (.obj [("status", .num 404)]) .undefined
      = .args2 .null (.arr [])
    ∧ invitesReceivedEnd
        (.obj [("status", .num 500),
               ("response", .obj [("body", .obj [("k", .num 1)])])]) .undefined
      = .args1 (jsOr (.obj [("k", .num 1)]) (.arr []))
    ∧ invitesReceivedEnd .null
        (.obj [("status", .num 404), ("body", .arr [.num 7])])
      = .args2 .null (.arr [])
    ∧ invitesReceivedEnd .null
        (.obj [("status", .num 200), ("body", .arr [.num 7])])
      = .args2 .null (.arr [.num 7])
    ∧ invitesReceivedEnd .null
        (.obj [("status", .num 500), ("body", .arr [.num 7])])
      = .args2 (.arr [.num 7]) (.arr [])
    ∧ invitesSentEnd (.obj [("status", .num 404), ("body", .arr [.num 7])])
      = .args2 .null (.arr [])
    ∧ invitesSentEnd (.obj [("status", .num 200), ("body", .arr [.num 7])])
      = .args2 .null (.arr [.num 7])
    ∧ invitesSentEnd (.obj [("status", .num 500), ("body", .arr [.num 7])])
      = .args2 (.arr [.num 7]) (.arr []) :=
  C2_amended 500 (.obj [("k", .num 1)]) (.arr [.num 7]) (by decide) (by decide)

/-- Claim C3 (confirmed): calling `signupStart`, `signupResend` or
`requestPasswordReset` with an identifier/email that is the empty string or
not a string throws synchronously (`OpOutcome.threw`, which by construction
issues no request), for any token, trace, language and `info` flag. -/
theorem C3_empty_or_nonstring_throws (v : JSValue) (tok trc lang : String)
    (h : v = .str "" ∨ isString v = false) :
    signupStart tok trc v lang = .threw "Invalid parameter invitedId"
    ∧ signupResend trc v lang = .threw "Invalid parameter email"
    ∧ requestPasswordReset trc v true lang = .threw "Invalid parameter email"
    ∧ requestPasswordReset trc v false lang = .threw "Invalid parameter email" := by
  have hc : (isEmpty v || !isString v) = true := by
    rcases h with h | h
    · subst h; rfl
    · simp [h]
  refine ⟨?_, ?_, ?_, ?_⟩ <;>
    simp [signupStart, signupResend, requestPasswordReset, hc]

/-- Claim C3, witness: the number `42` (a non-string) makes all three
operations throw without issuing a request. -/
theorem C3_witness :
    signupStart "tok" "trc" (.num 42) "en" = .threw "Invalid parameter invitedId"
    ∧ signupResend "trc" (.num 42) "en" = .threw "Invalid parameter email"
    ∧ requestPasswordReset "trc" (.num 42) true "en"
        = .threw "Invalid parameter email"
    ∧ requestPasswordReset "trc" (.num 42) false "en"
        = .threw "Invalid parameter email" :=
  C3_empty_or_nonstring_throws (.num 42) "tok" "trc" "en" (Or.inr rfl)

/-- Claim C4 (confirmed): when the payload's `key`, `email` or `password`
field is empty, `confirmPasswordReset` invokes the callback locally
(`OpOutcome.localCb`, which by construction issues no request) with a
descriptor whose `status` is the fixed bad-request constant
`STATUS_BAD_REQUEST`. -/
theorem C4_fail_fast (payload : JSValue)
    (h : isEmpty (payload.get "key") = true
      ∨ isEmpty (payload.get "email") = true
      ∨ isEmpty (payload.get "password") = true) :
    confirmPasswordReset payload
      = .localCb (.args1 (.obj [("status", .num STATUS_BAD_REQUEST),
          ("body", .str "payload requires object with `key`, `email`, `password`")])) := by
  have hc : (isEmpty (payload.get "key") || isEmpty (payload.get "email") ||
      isEmpty (payload.get "password")) = true := by
    rcases h with h | h | h <;> simp [h]
  simp [confirmPasswordReset, hc]

/-- Claim C4, witness: a payload with `email` and `password` but no `key`
fails fast with status 400 and no request. -/
theorem C4_witness :
    confirmPasswordReset (.obj [("email", .str "a@b.c"), ("password", .str "pw")])
      = .localCb (.args1 (.obj [("status", .num 400),
          ("body", .str "payload requires object with `key`, `email`, `password`")])) :=
  C4_fail_fast (.obj [("email", .str "a@b.c"), ("password", .str "pw")])
    (Or.inl rfl)

/-- Claim C5, counterexample. The claim says every superagent-style
transport error is augmented with a `message` taken from the attached
response body's `reason`; but `confirmPasswordResetEnd` reads
`err.response.error` instead (confirm.js line 318): with a partial response
whose body has `reason = "oops"` and no `error` property, the delivered
`message` is the empty string, not `"oops"`. -/
theorem C5_counterexample :
    confirmPasswordResetEnd
        (.obj [("status", .num 0),
               ("response", .obj [("body", .obj [("reason", .str "oops")])])])
        .undefined
      = .args1 (.obj [("status", .num 0),
               ("response", .obj [("body", .obj [("reason", .str "oops")])]),
               ("message", .str "")])
    ∧ JSValue.str "" ≠ .str "oops" :=
  ⟨rfl, by simp⟩

/-- Claim C5, amended: on a transport error carrying a partial response
(body `reason = r`, body `error = e`, response `error = e`), the callback
receives the same underlying error object augmented in place:
`signupConfirm` sets `message` to the body's `reason`,
`custodialSignupConfirm` sets `error` to the body's `error` and `message`
to the body's `reason`, while `confirmPasswordReset` sets `message` to the
response's `error` property (not the body's `reason`); each falls back to
the empty string when its source is absent or falsy. -/
theorem C5_amended (st : Int) (r e : String) :
    signupConfirmEnd (mkTransportErr st r e) .undefined
      = .args1 ((mkTransportErr st r e).set "message" (.str r))
    ∧ custodialSignupConfirmEnd (mkTransportErr st r e) .undefined
      = .args1 (((mkTransportErr st r e).set "error" (.str e)).set
          "message" (.str r))
    ∧ confirmPasswordResetEnd (mkTransportErr st r e) .undefined
      = .args1 ((mkTransportErr st r e).set "message" (.str e)) := by
  refine ⟨?_, ?_, ?_⟩ <;>
  · by_cases hr : r = "" <;> by_cases he : e = "" <;>
      simp [mkTransportErr, signupConfirmEnd, custodialSignupConfirmEnd,
        confirmPasswordResetEnd, isNullish, JSValue.get, getAssoc,
        JSValue.set, setAssoc, jsOr, jsAnd, JSValue.truthy,
        String.isEmpty_iff, hr, he]

/-- Claim C6 (confirmed): on the no-transport-error path, each
superagent-style handler (`signupConfirm`, `custodialSignupConfirm`,
`confirmPasswordReset`) invokes the callback with no error — `cb()` —
exactly when the response status is 200 (so 201 or 204 are errors there),
while each fetch-style handler (`signupStart`, `signupResend`,
`requestPasswordReset`) invokes `cb(null)` exactly when the status is
2xx (`response.ok`). -/
theorem C6_success_statuses (st : Int) (body resErr : JSValue) (r : FetchResponse) :
    (signupConfirmEnd .null (.obj [("status", .num st), ("body", body)])
        = .args0 ↔ st = 200)
    ∧ (custodialSignupConfirmEnd .null (.obj [("status", .num st), ("body", body)])
        = .args0 ↔ st = 200)
    ∧ (confirmPasswordResetEnd .null
          (.obj [("status", .num st), ("error", resErr), ("body", body)])
        = .args0 ↔ st = 200)
    ∧ (signupStartThen r = .args1 .null ↔ (200 ≤ r.status ∧ r.status < 300))
    ∧ (signupResendThen r = .args1 .null ↔ (200 ≤ r.status ∧ r.status < 300))
    ∧ (requestPasswordResetThen r = .args1 .null
        ↔ (200 ≤ r.status ∧ r.status < 300)) := by
  refine ⟨?_, ?_, ?_, ?_, ?_, ?_⟩
  all_goals
    first
    | (by_cases hst : st = 200 <;>
        simp [signupConfirmEnd, custodialSignupConfirmEnd, confirmPasswordResetEnd,
          isNullish, jsStrictEqNum, JSValue.get, getAssoc, hst])
    | (by_cases hok : 200 ≤ r.status ∧ r.status < 300 <;>
        simp [signupStartThen, signupResendThen, requestPasswordResetThen,
          FetchResponse.ok, jsNewError, hok])

/-- Claim C7, counterexample. The claim says that on a 204 response
`signupStart`'s callback is called with no arguments; in fact the code
executes `cb(null)` (confirm.js line 48), a call with exactly one argument,
`null`. -/
theorem C7_counterexample :
    signupStartThen ⟨204, ""⟩ = .args1 .null
    ∧ CbCall.args1 .null ≠ CbCall.args0 :=
  ⟨rfl, by simp⟩

/-- Claim C7, amended: `signupStart("user123", "fr", cb)` issues a POST to
`/confirm/send/signup/user123` with header `x-tidepool-language: fr`; on a
204 response `cb` is called with the single argument `null` (no error); on a
400 response `cb` is called with an Error whose `message` is
`"Invalid HTTP response 400"`. -/
theorem C7_amended (tok trc : String) :
    signupStart tok trc (.str "user123") "fr"
      = .request { method := "POST"
                   path := "/confirm/send/signup/user123"
                   headers := [("x-tidepool-session-token", tok),
                               ("x-tidepool-trace-session", trc),
                               ("x-tidepool-language", "fr")]
                   body := none }
    ∧ signupStartThen ⟨204, ""⟩ = .args1 .null
    ∧ signupStartThen ⟨400, ""⟩ = .args1 (jsNewError "Invalid HTTP response 400")
    ∧ (jsNewError "Invalid HTTP response 400").get "message"
        = .str "Invalid HTTP response 400" :=
  ⟨rfl, rfl, rfl, rfl⟩

/-- Claim C8, counterexample. The claim says all three signup/reset
operations attach the session-token, trace-session and language headers; but
`signupResend`'s request (confirm.js lines 118-124) carries only the
trace-session and language headers — a lookup for
`x-tidepool-session-token` in its header list comes back empty (the source
never calls `common.getToken()` there). -/
theorem C8_counterexample :
    signupResend "trace1" (.str "a@b.c") "en"
      = .request { method := "POST"
                   path := "/confirm/resend/signup/a@b.c"
                   headers := [("x-tidepool-trace-session", "trace1"),
                               ("x-tidepool-language", "en")]
                   body := none }
    ∧ List.lookup "x-tidepool-session-token"
        [("x-tidepool-trace-session", "trace1"), ("x-tidepool-language", "en")]
      = (none : Option String) :=
  ⟨rfl, rfl⟩

/-- Claim C8, amended: `signupStart` attaches all three headers
`x-tidepool-session-token`, `x-tidepool-trace-session` and
`x-tidepool-language` (carrying token, trace id and language), while
`signupResend` and `requestPasswordReset` attach only the trace-session and
language headers, with no session-token header. -/
theorem C8_amended (tok trc lang s : String) (h : s ≠ "") :
    signupStart tok trc (.str s) lang
      = .request { method := "POST"
                   path := "/confirm/send/signup/" ++ s
                   headers := [("x-tidepool-session-token", tok),
                               ("x-tidepool-trace-session", trc),
                               ("x-tidepool-language", lang)]
                   body := none }
    ∧ signupResend trc (.str s) lang
      = .request { method := "POST"
                   path := "/confirm/resend/signup/" ++ s
                   headers := [("x-tidepool-trace-session", trc),
                               ("x-tidepool-language", lang)]
                   body := none }
    ∧ requestPasswordReset trc (.str s) true lang
      = .request { method := "POST"
                   path := "/confirm/send/forgot/" ++ s ++ "?info=ok"
                   headers := [("x-tidepool-trace-session", trc),
                               ("x-tidepool-language", lang)]
                   body := none } := by
  refine ⟨?_, ?_, ?_⟩ <;>
    simp [signupStart, signupResend, requestPasswordReset, isEmpty, isString,
      jsTemplateStr, String.isEmpty_iff, h]

/-- Claim C8, witness: the amended statement at email `"a@b.c"`, token
`"tok"`, trace `"trc"`, language `"en"`. -/
theorem C8_amended_witness :
    signupStart "tok" "trc" (.str "a@b.c") "en"
      = .request { method := "POST"
                   path := "/confirm/send/signup/a@b.c"
                   headers := [("x-tidepool-session-token", "tok"),
                               ("x-tidepool-trace-session", "trc"),
                               ("x-tidepool-language", "en")]
                   body := none }
    ∧ signupResend "trc" (.str "a@b.c") "en"
      = .request { method := "POST"
                   path := "/confirm/resend/signup/a@b.c"
                   headers := [("x-tidepool-trace-session", "trc"),
                               ("x-tidepool-language", "en")]
                   body := none }
    ∧ requestPasswordReset "trc" (.str "a@b.c") true "en"
      = .request { method := "POST"
                   path := "/confirm/send/forgot/a@b.c?info=ok"
                   headers := [("x-tidepool-trace-session", "trc"),
                               ("x-tidepool-language", "en")]
                   body := none } :=
  C8_amended "tok" "trc" "en" "a@b.c" (by decide)

/-- Claim C9, counterexample. The claim says every application-level error
carries a `status` field and a string `message` field; but
`confirmPasswordReset`'s fail-fast descriptor (confirm.js line 310) has a
`body` field and no `message` at all, and `signupStart`'s non-ok error
(line 50) is a `new Error(...)` with a `message` but no `status` field. -/
theorem C9_counterexample :
    (confirmPasswordReset (.obj [])
        = .localCb (.args1 (.obj [("status", .num 400),
            ("body", .str "payload requires object with `key`, `email`, `password`")]))
      ∧ (JSValue.obj [("status", .num 400),
            ("body", .str "payload requires object with `key`, `email`, `password`")]).get
          "message" = .undefined)
    ∧ (signupStartThen ⟨400, ""⟩ = .args1 (jsNewError "Invalid HTTP response 400")
      ∧ (jsNewError "Invalid HTTP response 400").get "status" = .undefined) :=
  ⟨⟨rfl, rfl⟩, ⟨rfl, rfl⟩⟩

/-- Claim C9, amended: the error shapes actually delivered on
application-level failures are: `signupResend` and `requestPasswordReset`
deliver `{status, message}` with an integer status and a string message;
`signupStart` delivers an Error object with a string `message` but no
`status` field; `confirmPasswordReset`'s fail-fast path delivers
`{status, body}` with no `message` field; and the superagent non-200
descriptors carry `status` with `message` copied from `res.body.reason`,
which is `undefined` (not a string) when absent. -/
theorem C9_amended (r : FetchResponse) (payload : JSValue) (st : Int)
    (hok : FetchResponse.ok r = false)
    (hkey : isEmpty (payload.get "key") = true) (hst : st ≠ 200) :
    signupResendThen r
      = .args1 (.obj [("status", .num r.status), ("message", .str r.text)])
    ∧ requestPasswordResetThen r
      = .args1 (.obj [("status", .num r.status), ("message", .str r.text)])
    ∧ signupStartThen r
      = .args1 (jsNewError ("Invalid HTTP response " ++ toString r.status))
    ∧ (jsNewError ("Invalid HTTP response " ++ toString r.status)).get "status"
      = .undefined
    ∧ confirmPasswordReset payload
      = .localCb (.args1 (.obj [("status", .num STATUS_BAD_REQUEST),
          ("body", .str "payload requires object with `key`, `email`, `password`")]))
    ∧ (JSValue.obj [("status", .num STATUS_BAD_REQUEST),
          ("body", .str "payload requires object with `key`, `email`, `password`")]).get
        "message" = .undefined
    ∧ signupConfirmEnd .null (.obj [("status", .num st), ("body", .obj [])])
      = .args1 (.obj [("status", .num st), ("message", .undefined)]) := by
  refine ⟨?_, ?_, ?_, rfl, ?_, rfl, ?_⟩
  · simp [signupResendThen, hok]
  · simp [requestPasswordResetThen, hok]
  · simp [signupStartThen, hok]
  · simp [confirmPasswordReset, hkey]
  · simp [signupConfirmEnd, isNullish, jsStrictEqNum, JSValue.get, getAssoc, hst]

/-- Claim C9, witness: the amended statement at a 500 fetch response with
body text `"err"`, the empty-object payload, and superagent status 500. -/
theorem C9_amended_witness :
    signupResendThen ⟨500, "err"⟩
      = .args1 (.obj [("status", .num 500), ("message", .str "err")])
    ∧ requestPasswordResetThen ⟨500, "err"⟩
      = .args1 (.obj [("status", .num 500), ("message", .str "err")])
    ∧ signupStartThen ⟨500, "err"⟩
      = .args1 (jsNewError "Invalid HTTP response 500")
    ∧ (jsNewError "Invalid HTTP response 500").get "status" = .undefined
    ∧ confirmPasswordReset (.obj [])
      = .localCb (.args1 (.obj [("status", .num 400),
          ("body", .str "payload requires object with `key`, `email`, `password`")]))
    ∧ (JSValue.obj [("status", .num 400),
          ("body", .str "payload requires object with `key`, `email`, `password`")]).get
        "message" = .undefined
    ∧ signupConfirmEnd .null (.obj [("status", .num 500), ("body", .obj [])])
      = .args1 (.obj [("status", .num 500), ("message", .undefined)]) :=
  C9_amended ⟨500, "err"⟩ (.obj []) 500 rfl rfl (by decide)

/-- Claim C10 (confirmed): `requestPasswordReset` with `info = true` POSTs to
`/confirm/send/forgot/<email>?info=ok` and with `info = false` POSTs to
`/confirm/send/forgot/<email>` with no query string; the two requests agree
on method, headers and body, so the flag affects only the URL, and the
response mapping (`requestPasswordResetThen`) takes no `info` input at all. -/
theorem C10_info_flag (trc lang s : String) (h : s ≠ "") :
    requestPasswordReset trc (.str s) true lang
      = .request { method := "POST"
                   path := "/confirm/send/forgot/" ++ s ++ "?info=ok"
                   headers := [("x-tidepool-trace-session", trc),
                               ("x-tidepool-language", lang)]
                   body := none }
    ∧ requestPasswordReset trc (.str s) false lang
      = .request { method := "POST"
                   path := "/confirm/send/forgot/" ++ s
                   headers := [("x-tidepool-trace-session", trc),
                               ("x-tidepool-language", lang)]
                   body := none } := by
  constructor <;>
    simp [requestPasswordReset, isEmpty, isString, jsTemplateStr,
      String.isEmpty_iff, h]

/-- Claim C10, witness: the statement at email `"a@b.c"`, trace `"trc"`,
language `"en"`. -/
theorem C10_witness :
    requestPasswordReset "trc" (.str "a@b.c") true "en"
      = .request { method := "POST"
                   path := "/confirm/send/forgot/a@b.c?info=ok"
                   headers := [("x-tidepool-trace-session", "trc"),
                               ("x-tidepool-language", "en")]
                   body := none }
    ∧ requestPasswordReset "trc" (.str "a@b.c") false "en"
      = .request { method := "POST"
                   path := "/confirm/send/forgot/a@b.c"
                   headers := [("x-tidepool-trace-session", "trc"),
                               ("x-tidepool-language", "en")]
                   body := none } :=
  C10_info_flag "trc" "en" "a@b.c" (by decide)

end Confirm
